import Mathlib

/-! otel-instrumentation: a shallow embedding and its checked properties.

The repository holds three Go programs:

* `go_mcp_server_with_otel_logging/main.go`: an MCP server over stdio that logs
  through an OpenTelemetry logger provider;
* `tracing_with_baggage/user-service/main.go` and
  `tracing_with_baggage/order-service/main.go`: two HTTP services that share
  `tracing_with_baggage/telemetry/otel.go` and pass baggage from one to the other.

Conventions of the embedding:

* a Go `error` is its message, and a possibly-nil error is an `Option Error`;
* results of library calls that depend on the outside world (the environment,
  exporter construction, the clock, the HTTP listener) are fields of `World`;
* a running process is a `GoState`: the trace of observable events, the process-wide
  globals of the OpenTelemetry API, and the stack of deferred calls of `main`;
* a Go func literal is defunctionalised: one constructor per literal, holding the
  variables it captures, together with a function that runs it.
-/

namespace OtelInstrumentation

/-! ## Basic values -/

/-- A Go `error`, identified with the text `Error()` returns. -/
abbrev Error := String

/-- An instant or duration in nanoseconds (`time.Time`, `time.Duration`). -/
abbrev Time := Nat

/-- The Go constant `time.Second`, in nanoseconds. -/
def Second : Time := 1000000000

/-- The process environment: what `os.LookupEnv` reports for each key. -/
abbrev Environ := String → Option String

/-- Go `os.Getenv`: the value of the variable, the empty string when it is unset. -/
def Getenv (env : Environ) (key : String) : String :=
  (env key).getD ""

/-- The helper `getEnv` of the MCP server (main.go:189-194). -/
def getEnv (env : Environ) (key defaultValue : String) : String :=
  let value := Getenv env key
  if value ≠ "" then value else defaultValue

/-! ## Baggage, span identity and `context.Context` -/

/-- One baggage member (`baggage.Member`): a key and a value. -/
structure Member where
  key : String
  value : String
  deriving DecidableEq, Repr

/-- A baggage set (`baggage.Baggage`): members in insertion order, keys unique. -/
structure Baggage where
  members : List Member
  deriving DecidableEq, Repr

/-- The trace identity carried by a context (`trace.SpanContext`). -/
structure SpanContext where
  traceID : String
  spanID : String
  sampled : Bool
  deriving DecidableEq, Repr

/-- The parts of a `context.Context` the programs use. -/
structure Context where
  /-- Absolute deadline, `none` when the context has none. -/
  deadline : Option Time
  /-- The active span's identity, when there is one. -/
  span : Option SpanContext
  /-- The baggage attached with `baggage.ContextWithBaggage`. -/
  baggage : Baggage
  deriving DecidableEq, Repr

/-- Go `context.Background()`: no deadline, no values. -/
def Context.Background : Context :=
  { deadline := none, span := none, baggage := ⟨[]⟩ }

/-- Go `context.WithTimeout(parent, d)` called at instant `now`: the deadline is
`now + d`, unless the parent's deadline is earlier. -/
def Context.WithTimeout (parent : Context) (now d : Time) : Context :=
  match parent.deadline with
  | some t => if t < now + d then parent else { parent with deadline := some (now + d) }
  | none => { parent with deadline := some (now + d) }

/-! ## The log API (`go.opentelemetry.io/otel/log`) -/

/-- Severity of a log record (`log.Severity`, an integer). -/
abbrev Severity := Nat

/-- Library constant `log.SeverityDebug`. -/
def SeverityDebug : Severity := 5
/-- Library constant `log.SeverityInfo`. -/
def SeverityInfo : Severity := 9
/-- Library constant `log.SeverityWarn`. -/
def SeverityWarn : Severity := 13
/-- Library constant `log.SeverityError`. -/
def SeverityError : Severity := 17

/-- A value of the log API (`log.Value`). -/
inductive Value where
  | empty
  | string (s : String)
  | int64 (i : Int)
  | bool (b : Bool)
  deriving DecidableEq, Repr

/-- Go `log.StringValue`. -/
def StringValue (s : String) : Value := Value.string s

/-- An attribute of a log record (`log.KeyValue`). -/
structure KeyValue where
  key : String
  value : Value
  deriving DecidableEq, Repr

/-- A log record of the API (`log.Record`); attributes are kept in the order added. -/
structure Record where
  timestamp : Time
  severity : Severity
  body : Value
  attrs : List KeyValue
  deriving DecidableEq, Repr

/-- The zero value `var record log.Record`. -/
def Record.zero : Record :=
  { timestamp := 0, severity := 0, body := Value.empty, attrs := [] }

/-- Method `(*log.Record).SetTimestamp`. -/
def Record.SetTimestamp (r : Record) (t : Time) : Record := { r with timestamp := t }

/-- Method `(*log.Record).SetSeverity`. -/
def Record.SetSeverity (r : Record) (level : Severity) : Record := { r with severity := level }

/-- Method `(*log.Record).SetBody`. -/
def Record.SetBody (r : Record) (v : Value) : Record := { r with body := v }

/-- Method `(*log.Record).AddAttributes`: appends, keeping the order. -/
def Record.AddAttributes (r : Record) (attrs : List KeyValue) : Record :=
  { r with attrs := r.attrs ++ attrs }

/-! ## Exporters, providers and propagators -/

/-- The two standard streams a program writes to. -/
inductive Stream where
  | stdout
  | stderr
  deriving DecidableEq, Repr

/-- Options of the console exporter (`stdoutlog.Option`) the program passes. -/
inductive StdoutlogOption where
  | WithWriter (w : Stream)
  | WithPrettyPrint
  deriving DecidableEq, Repr

/-- The type `noopExporter` of the MCP server (main.go:128): a struct without fields. -/
structure noopExporter where
  deriving DecidableEq, Repr

/-- A log exporter (`sdklog.Exporter`): the three implementations the program builds. -/
inductive Exporter where
  | otlploghttp (endpointURL : String) (headers : List (String × String))
  | stdoutlog (opts : List StdoutlogOption)
  | noop (e : noopExporter)
  deriving DecidableEq, Repr

/-- A resource (`resource.Resource`): process-wide attributes. -/
structure Resource where
  attrs : List (String × String)
  deriving DecidableEq, Repr

/-- A logger provider built by `sdklog.NewLoggerProvider(WithResource(res),
WithProcessor(NewBatchProcessor(exporter)))`. -/
structure LoggerProvider where
  resource : Resource
  batchExporter : Exporter
  deriving DecidableEq, Repr

/-- A record as the SDK hands it to an exporter (`sdklog.Record`). -/
structure SdkRecord where
  record : Record
  resource : Resource
  scope : String
  deriving DecidableEq, Repr

/-- A tracer provider built by `trace.NewTracerProvider(WithResource(res),
WithBatcher(traceExp))`, `traceExp` being the insecure OTLP/HTTP exporter. -/
structure TracerProvider where
  resource : Resource
  deriving DecidableEq, Repr

/-- The two propagators of package `propagation` the programs name. -/
inductive TextMapPropagator where
  | TraceContext
  | Baggage
  deriving DecidableEq, Repr

/-- A composite propagator (`propagation.NewCompositeTextMapPropagator`): its parts in
order. The empty composite is the no-op propagator the API starts with. -/
abbrev Propagator := List TextMapPropagator

/-! ## Func literals, defunctionalised -/

/-- The values of type `telemetry.ShutdownFunc` that `Run` builds (otel.go:22, 66). -/
inductive ShutdownFunc where
  /-- The literal `func(ctx context.Context) error { return nil }`. -/
  | noop
  /-- The literal of otel.go:66-72, which captures `tp`. -/
  | shutdownProvider (tp : TracerProvider)
  deriving DecidableEq, Repr

/-- The func literal `cleanup` of `setupOTelLogging` (main.go:116-122); it captures
`loggerProvider`. -/
structure Cleanup where
  loggerProvider : LoggerProvider
  deriving DecidableEq, Repr

/-- The calls a `main` function defers. -/
inductive Deferred where
  /-- The literal `func() { os.Exit(exitCode) }` of the two services; `exitCode` is
  assigned once, where it is declared, so the literal sees that value. -/
  | exitWith (exitCode : Int)
  /-- The literal `func() { if err := shutdown(context.Background()); ... }`. -/
  | shutdownTelemetry (shutdown : ShutdownFunc)
  /-- The call `cleanup()` deferred by the MCP server; the func value may be nil. -/
  | cleanup (c : Option Cleanup)
  deriving DecidableEq, Repr

/-! ## Processes -/

/-- What a process does that can be seen from outside, or by the libraries it calls. -/
inductive Event where
  /-- Bytes written by the program itself to a standard stream. -/
  | write (s : Stream) (msg : String)
  /-- A record handed to `log.Logger.Emit` of the logger with the given scope name. -/
  | emit (scope : String) (ctx : Context) (r : Record)
  /-- A call of `LoggerProvider.Shutdown`. -/
  | loggerProviderShutdown (p : LoggerProvider) (ctx : Context)
  /-- A call of `TracerProvider.Shutdown`. -/
  | tracerProviderShutdown (p : TracerProvider) (ctx : Context)
  /-- A call of `http.HandleFunc` with the given pattern. -/
  | handleFunc (pattern : String)
  /-- A call of `http.ListenAndServe`: requests are served until it returns. -/
  | listenAndServe (addr : String)
  /-- A call of the MCP server's `Serve`: requests on stdin are served until it returns. -/
  | mcpServe (tools : List String)
  deriving DecidableEq, Repr

/-- The state of a running process. -/
structure GoState where
  /-- Events so far, oldest first. -/
  trace : List Event
  /-- How many times the clock has been read. -/
  ticks : Nat
  /-- The global logger provider once `global.SetLoggerProvider` was called. -/
  loggerProvider : Option LoggerProvider
  /-- The global tracer provider once `otel.SetTracerProvider` was called. -/
  tracerProvider : Option TracerProvider
  /-- The global propagator (`otel.GetTextMapPropagator`). -/
  propagator : Propagator
  /-- Calls deferred by `main`, the most recent first. -/
  defers : List Deferred
  deriving DecidableEq, Repr

/-- A process at its start: nothing done, the API's no-op globals. -/
def GoState.init : GoState :=
  { trace := [], ticks := 0, loggerProvider := none, tracerProvider := none,
    propagator := [], defers := [] }

/-- Where a piece of Go code leaves the process: it completed with a value, or it
ended the process with `os.Exit`. -/
inductive Res (α : Type) where
  | ok (a : α) (s : GoState)
  | exited (code : Int) (s : GoState)

/-- The state a result carries. -/
def Res.state {α : Type} : Res α → GoState
  | Res.ok _ s => s
  | Res.exited _ s => s

/-- Go code that yields an `α`. -/
def Go (α : Type) : Type := GoState → Res α

/-- Continue with `f` unless the process has ended. -/
def Go.bind {α β : Type} (m : Go α) (f : α → Go β) : Go β := fun s =>
  match m s with
  | Res.ok a s1 => f a s1
  | Res.exited c s1 => Res.exited c s1

instance : Monad Go where
  pure a := fun s => Res.ok a s
  bind := Go.bind

/-- Append one event to the trace. -/
def observe (e : Event) : Go Unit := fun s =>
  Res.ok () { s with trace := s.trace ++ [e] }

/-- Go `os.Exit(code)`: the process ends at once; deferred calls do not run. -/
def osExit {α : Type} (code : Int) : Go α := fun s => Res.exited code s

/-- Go `fmt.Fprintf(stream, ...)` with the formatted text `msg`. -/
def Fprintf (stream : Stream) (msg : String) : Go Unit :=
  observe (Event.write stream msg)

/-- Go `log.Fatal(v)` of the standard logger: the text goes to standard error, the
logger's default output (its date and time header is left out), and the process
ends with status 1 through `os.Exit(1)`. -/
def logFatal {α : Type} (msg : String) : Go α := do
  observe (Event.write Stream.stderr (msg ++ "\n"))
  osExit 1

/-- A `defer` statement of `main`. -/
def deferCall (d : Deferred) : Go Unit := fun s =>
  Res.ok () { s with defers := d :: s.defers }

/-- The results of calls into the outside world. -/
structure World where
  /-- The environment variables. -/
  env : Environ
  /-- The successive readings of `time.Now()`. -/
  clock : Nat → Time
  /-- The call `resource.New(ctx, WithFromEnv(), WithAttributes(attrs...))`. -/
  resourceNew : List (String × String) → Resource × Option Error
  /-- The error of `otlploghttp.New` for an endpoint and headers. -/
  otlploghttpNew : String → List (String × String) → Option Error
  /-- The error of `stdoutlog.New` for a list of options. -/
  stdoutlogNew : List StdoutlogOption → Option Error
  /-- The error `LoggerProvider.Shutdown(ctx)` returns. -/
  loggerProviderShutdown : LoggerProvider → Context → Option Error
  /-- The error of `otelsql.Open`. -/
  sqlOpen : Option Error
  /-- The call `resource.Merge(resource.Default(), NewWithAttributes(...))`. -/
  resourceMerge : String → Resource × Option Error
  /-- The error of `otlptracehttp.New(ctx, WithInsecure())`. -/
  otlptracehttpNew : Option Error
  /-- The error `TracerProvider.Shutdown(ctx)` returns. -/
  tracerProviderShutdown : TracerProvider → Context → Option Error
  /-- The error `http.ListenAndServe(addr, nil)` returns; it is never nil. -/
  listenAndServe : String → Error

/-- Go `time.Now()`. -/
def timeNow (w : World) : Go Time := fun s =>
  Res.ok (w.clock s.ticks) { s with ticks := s.ticks + 1 }

/-! ## The MCP server (`go_mcp_server_with_otel_logging/main.go`) -/

/-- What a method of `noopExporter` leaves behind: the error it returns, the receiver
and the caller's slice of records after the call. -/
structure ExporterCall where
  err : Option Error
  exporter : noopExporter
  records : List SdkRecord
  deriving DecidableEq, Repr

/-- Method `(*noopExporter).Export` (main.go:130-132). -/
def noopExporter.Export (e : noopExporter) (_ctx : Context) (records : List SdkRecord) :
    ExporterCall :=
  { err := none, exporter := e, records := records }

/-- Method `(*noopExporter).Shutdown` (main.go:134-136). -/
def noopExporter.Shutdown (e : noopExporter) (_ctx : Context) : Option Error × noopExporter :=
  (none, e)

/-- Method `(*noopExporter).ForceFlush` (main.go:138-140). -/
def noopExporter.ForceFlush (e : noopExporter) (_ctx : Context) :
    Option Error × noopExporter :=
  (none, e)

/-- A logger of the API (`log.Logger`), known by its scope name; `Emit` on it is the
event `Event.emit`. -/
structure LogLogger where
  scope : String
  deriving DecidableEq, Repr

/-- The type `Logger` of the MCP server (main.go:21-23). -/
structure Logger where
  logger : LogLogger
  deriving DecidableEq, Repr

/-- Function `NewLogger` (main.go:25-29): the logger named `name` of the global provider. -/
def NewLogger (name : String) : Logger :=
  { logger := { scope := name } }

/-- Method `(*Logger).Info` (main.go:31-38). -/
def Logger.Info (w : World) (l : Logger) (ctx : Context) (msg : String)
    (attrs : List KeyValue) : Go Unit := do
  let r0 := Record.zero
  let now ← timeNow w
  let r1 := r0.SetTimestamp now
  let r2 := r1.SetSeverity SeverityInfo
  let r3 := r2.SetBody (StringValue msg)
  let r4 := r3.AddAttributes attrs
  observe (Event.emit l.logger.scope ctx r4)

/-- Method `(*Logger).Error` (main.go:40-47). -/
def Logger.Error (w : World) (l : Logger) (ctx : Context) (msg : String)
    (attrs : List KeyValue) : Go Unit := do
  let r0 := Record.zero
  let now ← timeNow w
  let r1 := r0.SetTimestamp now
  let r2 := r1.SetSeverity SeverityError
  let r3 := r2.SetBody (StringValue msg)
  let r4 := r3.AddAttributes attrs
  observe (Event.emit l.logger.scope ctx r4)

/-- Method `(*Logger).Debug` (main.go:49-56). -/
def Logger.Debug (w : World) (l : Logger) (ctx : Context) (msg : String)
    (attrs : List KeyValue) : Go Unit := do
  let r0 := Record.zero
  let now ← timeNow w
  let r1 := r0.SetTimestamp now
  let r2 := r1.SetSeverity SeverityDebug
  let r3 := r2.SetBody (StringValue msg)
  let r4 := r3.AddAttributes attrs
  observe (Event.emit l.logger.scope ctx r4)

/-- Method `(*Logger).Warn` (main.go:58-65). -/
def Logger.Warn (w : World) (l : Logger) (ctx : Context) (msg : String)
    (attrs : List KeyValue) : Go Unit := do
  let r0 := Record.zero
  let now ← timeNow w
  let r1 := r0.SetTimestamp now
  let r2 := r1.SetSeverity SeverityWarn
  let r3 := r2.SetBody (StringValue msg)
  let r4 := r3.AddAttributes attrs
  observe (Event.emit l.logger.scope ctx r4)

/-- Go `global.SetLoggerProvider`. -/
def SetLoggerProvider (p : LoggerProvider) : Go Unit := fun s =>
  Res.ok () { s with loggerProvider := some p }

/-- The end of `setupOTelLogging`, after the switch (main.go:109-124): the provider is
built around the exporter and made global, and the cleanup literal is returned. -/
def setupOTelLogging.install (res : Resource) (exporter : Exporter) :
    Go (Option Cleanup × Option Error) := do
  let loggerProvider : LoggerProvider := { resource := res, batchExporter := exporter }
  SetLoggerProvider loggerProvider
  let cleanup : Cleanup := { loggerProvider := loggerProvider }
  pure (some cleanup, none)

/-- The attributes `setupOTelLogging` gives `resource.WithAttributes` (main.go:71-74):
`semconv.ServiceName` and `semconv.ServiceVersion`. -/
def setupOTelLogging.attributes (env : Environ) : List (String × String) :=
  [("service.name", getEnv env "OTEL_SERVICE_NAME" "mcp-server"),
   ("service.version", getEnv env "OTEL_SERVICE_VERSION" "1.0.0")]

/-- Function `setupOTelLogging` (main.go:68-125). -/
def setupOTelLogging (w : World) (_ctx : Context) : Go (Option Cleanup × Option Error) :=
  match w.resourceNew (setupOTelLogging.attributes w.env) with
  | (_, some err) => pure (none, some ("failed to create resource: " ++ err))
  | (res, none) =>
    let logsExporter := getEnv w.env "OTEL_LOGS_EXPORTER" "console"
    if logsExporter = "otlp" then
      let endpoint := getEnv w.env "OTEL_EXPORTER_OTLP_ENDPOINT" "localhost:4318"
      let headers := [("Authorization", getEnv w.env "OTEL_EXPORTER_OTLP_AUTH_TOKEN" "")]
      match w.otlploghttpNew endpoint headers with
      | some err => pure (none, some ("failed to create OTLP exporter: " ++ err))
      | none => setupOTelLogging.install res (Exporter.otlploghttp endpoint headers)
    else if logsExporter = "console" then
      let opts := [StdoutlogOption.WithWriter Stream.stderr, StdoutlogOption.WithPrettyPrint]
      match w.stdoutlogNew opts with
      | some err => pure (none, some ("failed to create console exporter: " ++ err))
      | none => setupOTelLogging.install res (Exporter.stdoutlog opts)
    else if logsExporter = "none" then
      setupOTelLogging.install res (Exporter.noop {})
    else
      pure (none, some ("unsupported OTEL_LOGS_EXPORTER: " ++ logsExporter))

/-- Runs the literal `cleanup` (main.go:116-122). The deferred `cancel()` only
releases the timer of the context and is not observable. -/
def Cleanup.call (w : World) (c : Cleanup) : Go Unit := do
  let now ← timeNow w
  let ctx := Context.WithTimeout Context.Background now (5 * Second)
  observe (Event.loggerProviderShutdown c.loggerProvider ctx)
  match w.loggerProviderShutdown c.loggerProvider ctx with
  | some err => Fprintf Stream.stderr ("Error shutting down logger provider: " ++ err ++ "\n")
  | none => pure ()

/-- Calling a func value that may be nil: a nil one makes the Go runtime report the
fault on standard error and end the process with status 2. -/
def callCleanup (w : World) : Option Cleanup → Go Unit
  | some c => c.call w
  | none => do
    Fprintf Stream.stderr "panic: runtime error: invalid memory address or nil pointer dereference\n"
    osExit 2

/-- The body of `main` of the MCP server (main.go:196-256), up to its return. Building
the tool list and the server (`mcp.NewServer`) has no effect of its own; `Serve`
is the event `Event.mcpServe`. -/
def McpServer.main (w : World) : Go Unit := do
  let ctx := Context.Background
  let (cleanup, err) ← setupOTelLogging w ctx
  match err with
  | some e => do
    Fprintf Stream.stderr ("Failed to setup logging: " ++ e ++ "\n")
    osExit 1
  | none => pure ()
  deferCall (Deferred.cleanup cleanup)
  let logger := NewLogger "mcp-server"
  let serviceName := getEnv w.env "OTEL_SERVICE_NAME" "mcp-server"
  let serviceVersion := getEnv w.env "OTEL_SERVICE_VERSION" "1.0.0"
  logger.Info w ctx "Starting MCP Server with OpenTelemetry logging"
    [⟨"service_name", StringValue serviceName⟩,
     ⟨"service_version", StringValue serviceVersion⟩,
     ⟨"logs_exporter", StringValue (getEnv w.env "OTEL_LOGS_EXPORTER" "console")⟩]
  logger.Info w ctx "MCP Server configured with tools"
    [⟨"available_tools", StringValue "echo, sha256, ping"⟩]
  logger.Info w ctx "Starting MCP server with stdio transport" []
  observe (Event.mcpServe ["echo"])

/-! ## The shared telemetry package (`tracing_with_baggage/telemetry/otel.go`) -/

/-- Go `otel.SetTracerProvider`. -/
def SetTracerProvider (tp : TracerProvider) : Go Unit := fun s =>
  Res.ok () { s with tracerProvider := some tp }

/-- Go `otel.SetTextMapPropagator`. -/
def SetTextMapPropagator (p : Propagator) : Go Unit := fun s =>
  Res.ok () { s with propagator := p }

/-- Go `propagation.NewCompositeTextMapPropagator`. -/
def NewCompositeTextMapPropagator (ps : List TextMapPropagator) : Propagator := ps

/-- Calls a `ShutdownFunc` with a context: the body of the literal it stands for
(otel.go:22 and otel.go:66-72). -/
def ShutdownFunc.call (w : World) : ShutdownFunc → Context → Go (Option Error)
  | ShutdownFunc.noop, _ => pure none
  | ShutdownFunc.shutdownProvider tp, ctx => do
    let retErr : Option Error := none
    observe (Event.tracerProviderShutdown tp ctx)
    match w.tracerProviderShutdown tp ctx with
    | some err => pure (some err)
    | none => pure retErr

/-- Function `telemetry.Run` (otel.go:20-77). -/
def Run (w : World) (_ctx : Context) (serviceName : String) :
    Go (ShutdownFunc × Option Error) :=
  let shutdownFunc := ShutdownFunc.noop
  match w.resourceMerge serviceName with
  | (_, some err) => pure (shutdownFunc, some err)
  | (res, none) =>
    match w.otlptracehttpNew with
    | some err => pure (shutdownFunc, some err)
    | none => do
      let tp : TracerProvider := { resource := res }
      SetTracerProvider tp
      SetTextMapPropagator (NewCompositeTextMapPropagator
        [TextMapPropagator.TraceContext, TextMapPropagator.Baggage])
      let shutdownFunc := ShutdownFunc.shutdownProvider tp
      pure (shutdownFunc, none)

/-! ## The two services: their `main` functions -/

/-- The body of `main` of user-service (user-service/main.go:103-131). -/
def UserService.main (w : World) : Go Unit := do
  match w.sqlOpen with
  | some dbErr => logFatal dbErr
  | none => pure ()
  let exitCode : Int := 0
  deferCall (Deferred.exitWith exitCode)
  let (shutdown, err) ← Run w Context.Background "user-service"
  match err with
  | some e => Fprintf Stream.stderr ("Failed to run OpenTelemetry: " ++ e ++ "\n")
  | none => pure ()
  deferCall (Deferred.shutdownTelemetry shutdown)
  observe (Event.handleFunc "/user")
  observe (Event.listenAndServe ":8080")
  logFatal (w.listenAndServe ":8080")

/-- The body of `main` of order-service (order-service/main.go:77-105). -/
def OrderService.main (w : World) : Go Unit := do
  match w.sqlOpen with
  | some dbErr => logFatal dbErr
  | none => pure ()
  let exitCode : Int := 0
  deferCall (Deferred.exitWith exitCode)
  let (shutdown, err) ← Run w Context.Background "order-service"
  match err with
  | some e => Fprintf Stream.stderr ("Failed to run OpenTelemetry: " ++ e ++ "\n")
  | none => pure ()
  deferCall (Deferred.shutdownTelemetry shutdown)
  observe (Event.handleFunc "/orders")
  observe (Event.listenAndServe ":8081")
  logFatal (w.listenAndServe ":8081")

/-! ## Running `main` -/

/-- Runs one deferred call: the body of the func literal it stands for. -/
def Deferred.call (w : World) : Deferred → Go Unit
  | Deferred.exitWith exitCode => osExit exitCode
  | Deferred.shutdownTelemetry shutdown => do
    let err ← shutdown.call w Context.Background
    match err with
    | some e => Fprintf Stream.stderr ("Failed to shutdown OpenTelemetry: " ++ e ++ "\n")
    | none => pure ()
  | Deferred.cleanup c => callCleanup w c

/-- The deferred calls of a returning function, the last deferred first. -/
def runDefers (w : World) : List Deferred → Go Unit
  | [] => pure ()
  | d :: ds => do
    d.call w
    runDefers w ds

/-- A whole run of a program: `main` runs from the initial state; when it returns,
its deferred calls run and the process ends with status 0; when anything calls
`os.Exit`, the process ends there. The result is the exit status and the last state. -/
def runMain (w : World) (body : Go Unit) : Int × GoState :=
  match body GoState.init with
  | Res.exited code s => (code, s)
  | Res.ok _ s =>
    match runDefers w s.defers { s with defers := [] } with
    | Res.exited code s1 => (code, s1)
    | Res.ok _ s1 => (0, s1)

/-- Whether an event is a call of a provider's shutdown. -/
def Event.isShutdown : Event → Bool
  | Event.loggerProviderShutdown _ _ => true
  | Event.tracerProviderShutdown _ _ => true
  | _ => false

/-- The context an event passes to a provider's shutdown, when it is such a call. -/
def Event.shutdownContext : Event → Option Context
  | Event.loggerProviderShutdown _ ctx => some ctx
  | Event.tracerProviderShutdown _ ctx => some ctx
  | _ => none

/-- A world for examples: empty environment, every library call succeeds, the clock
reads 0, 1, 2, ... seconds, and the listener fails to bind its port. -/
def World.quiet : World :=
  { env := fun _ => none
    clock := fun n => n * Second
    resourceNew := fun attrs => (⟨attrs⟩, none)
    otlploghttpNew := fun _ _ => none
    stdoutlogNew := fun _ => none
    loggerProviderShutdown := fun _ _ => none
    sqlOpen := none
    resourceMerge := fun name => (⟨[("service.name", name)]⟩, none)
    otlptracehttpNew := none
    tracerProviderShutdown := fun _ _ => none
    listenAndServe := fun addr => "listen tcp " ++ addr ++ ": bind: address already in use" }

/-! ## Baggage and propagation

The programs call packages `baggage` and `propagation` of the OpenTelemetry library,
whose code is not part of the repository's sources; the specification describes them
as the Baggage Set (§3, §4.1) and the Propagator (§4.2). -/

/-- Modelled from the spec: the configured limits of a Baggage Set (§3, "a maximum
member count and a maximum total serialized size"); the numbers are the library's and
are missing from the sources, so they are a parameter. -/
structure Limits where
  maxMembers : Nat
  maxBytes : Nat
  deriving DecidableEq, Repr

/-- An uppercase hexadecimal digit. -/
def hexDigit (n : Nat) : Char :=
  if n < 10 then Char.ofNat (48 + n) else Char.ofNat (55 + n)

/-- The value of a hexadecimal digit, of either case. -/
def hexValue (c : Char) : Option Nat :=
  if 48 ≤ c.toNat ∧ c.toNat ≤ 57 then some (c.toNat - 48)
  else if 65 ≤ c.toNat ∧ c.toNat ≤ 70 then some (c.toNat - 55)
  else if 97 ≤ c.toNat ∧ c.toNat ≤ 102 then some (c.toNat - 87)
  else none

/-- Modelled from the spec: the characters the wire format reserves (§4.2: the
equals sign, the comma and the semicolon), and the percent sign that introduces an
escape. -/
def isReserved (c : Char) : Bool :=
  c = '=' || c = ',' || c = ';' || c = '%'

/-- Modelled from the spec: percent-encoding of one character (§4.2). -/
def encodeChar (c : Char) : List Char :=
  if isReserved c then ['%', hexDigit (c.toNat / 16), hexDigit (c.toNat % 16)] else [c]

/-- Modelled from the spec: percent-encoding of a key or value (§4.2). -/
def percentEncode (s : String) : String :=
  String.mk (s.data.map encodeChar).flatten

/-- Modelled from the spec: the inverse of percent-encoding; `none` for a broken
escape. -/
def percentDecodeChars : List Char → Option (List Char)
  | [] => some []
  | c :: rest =>
    if c = '%' then
      match rest with
      | a :: b :: rest2 =>
        match hexValue a, hexValue b, percentDecodeChars rest2 with
        | some x, some y, some r => some (Char.ofNat (16 * x + y) :: r)
        | _, _, _ => none
      | _ => none
    else
      match percentDecodeChars rest with
      | some r => some (c :: r)
      | none => none

/-- Splits a list of characters at every occurrence of `sep`. -/
def splitChars (sep : Char) : List Char → List (List Char)
  | [] => [[]]
  | c :: rest =>
    match splitChars sep rest with
    | [] => [[]]
    | piece :: pieces => if c = sep then [] :: piece :: pieces else (c :: piece) :: pieces

/-- Cuts a list of characters at the first occurrence of `sep`, when there is one. -/
def cutChars (sep : Char) : List Char → Option (List Char × List Char)
  | [] => none
  | c :: rest =>
    if c = sep then some ([], rest)
    else
      match cutChars sep rest with
      | some (a, b) => some (c :: a, b)
      | none => none

/-- Drops leading blanks and tabs. -/
def trimLeft : List Char → List Char
  | [] => []
  | c :: rest => if c = ' ' ∨ c = '\t' then trimLeft rest else c :: rest

/-- Drops blanks and tabs at both ends (whitespace normalisation of the wire format). -/
def trimChars (cs : List Char) : List Char :=
  (trimLeft (trimLeft cs).reverse).reverse

/-- Modelled from the spec: the wire form of one member, `key=value` with both sides
percent-encoded (§4.2). -/
def Member.wire (m : Member) : String :=
  percentEncode m.key ++ "=" ++ percentEncode m.value

/-- Modelled from the spec: the wire form of a Baggage Set, its members separated by
commas (§4.2); Go names it `Baggage.String`. -/
def Baggage.wire (b : Baggage) : String :=
  ",".intercalate (b.members.map Member.wire)

/-- Modelled from the spec: `members()` (§4.1), the members in insertion order. -/
def Baggage.Members (b : Baggage) : List Member := b.members

/-- Modelled from the spec: `member(key)` (§4.1), Go's `Baggage.Member`; as in Go, an
absent member is the zero member. -/
def Baggage.GetMember (b : Baggage) (key : String) : Member :=
  match b.members.find? (fun m => m.key = key) with
  | some m => m
  | none => { key := "", value := "" }

/-- Modelled from the spec: `with(key, value)` (§4.1). The member is inserted, or
replaces the member with the same key in place; the insertion fails with
`CapacityExceeded` when the member count or the serialized size would pass a limit. -/
def Baggage.SetMember (lim : Limits) (b : Baggage) (m : Member) : Baggage × Option Error :=
  let ms :=
    if b.members.any (fun x => x.key = m.key) then
      b.members.map (fun x => if x.key = m.key then m else x)
    else b.members ++ [m]
  let b1 : Baggage := { members := ms }
  if lim.maxMembers < ms.length ∨ lim.maxBytes < b1.wire.utf8ByteSize then
    (b, some "CapacityExceeded")
  else (b1, none)

/-- Go `baggage.NewMember(key, value)`. Modelled from the spec: a member is a key and
a value (§3); the spec puts no condition on them, capacity being checked at insertion. -/
def NewMember (key value : String) : Member × Option Error :=
  ({ key := key, value := value }, none)

/-- Go `baggage.New(members...)`: the members inserted one after the other into the
empty set; the first failed insertion is returned as the error, with the empty set. -/
def NewBaggage (lim : Limits) (members : List Member) : Baggage × Option Error :=
  members.foldl
    (fun acc m =>
      match acc with
      | (b, none) =>
        match b.SetMember lim m with
        | (b1, none) => (b1, none)
        | (_, some err) => (⟨[]⟩, some err)
      | (b, some err) => (b, some err))
    (⟨[]⟩, none)

/-- Go `baggage.ContextWithBaggage`. -/
def ContextWithBaggage (parent : Context) (b : Baggage) : Context :=
  { parent with baggage := b }

/-- Go `baggage.FromContext`. -/
def FromContext (ctx : Context) : Baggage := ctx.baggage

/-- Modelled from the spec: one `key=value` pair of a baggage header (§4.2); `none`
when it is malformed. -/
def parseMember (piece : List Char) : Option Member :=
  match cutChars '=' (trimChars piece) with
  | none => none
  | some (k, v) =>
    match percentDecodeChars (trimChars k), percentDecodeChars (trimChars v) with
    | some key, some value =>
      if key = [] then none else some { key := String.mk key, value := String.mk value }
    | _, _ => none

/-- Modelled from the spec: parsing of a baggage header (§4.2): "as many well-formed
members as can be parsed, discarding the rest"; a member that does not fit the limits
is discarded as well. -/
def parseBaggage (lim : Limits) (header : String) : Baggage :=
  ((splitChars ',' header.data).filterMap parseMember).foldl
    (fun b m => (b.SetMember lim m).1) ⟨[]⟩

/-- The headers of an HTTP message (`http.Header` behind `propagation.HeaderCarrier`),
one value a key; keys are compared as written, both `Get` and `Set` spelling a key
the same way. -/
abbrev Header := List (String × String)

/-- Method `HeaderCarrier.Get`: the value of the key, the empty string when absent. -/
def Header.Get (h : Header) (key : String) : String :=
  match h.find? (fun kv => kv.1 = key) with
  | some kv => kv.2
  | none => ""

/-- Method `HeaderCarrier.Set`: the key now has this one value. -/
def Header.Set (h : Header) (key value : String) : Header :=
  (key, value) :: h.filter (fun kv => kv.1 ≠ key)

/-- Modelled from the spec: the trace identity on the wire (§4.2),
`version-traceid-spanid-flags`. -/
def SpanContext.traceparent (sc : SpanContext) : String :=
  "00-" ++ sc.traceID ++ "-" ++ sc.spanID ++ "-" ++ (if sc.sampled then "01" else "00")

/-- Whether every character is a hexadecimal digit. -/
def allHex (cs : List Char) : Bool := cs.all (fun c => (hexValue c).isSome)

/-- Modelled from the spec: parsing of the trace-identity header (§4.2); a malformed
header gives no trace identity. -/
def parseTraceparent (header : String) : Option SpanContext :=
  match splitChars '-' header.data with
  | [version, traceID, spanID, flags] =>
    if version = ['0', '0'] ∧ traceID.length = 32 ∧ allHex traceID ∧ spanID.length = 16
        ∧ allHex spanID ∧ flags.length = 2 ∧ allHex flags then
      some { traceID := String.mk traceID, spanID := String.mk spanID,
             sampled := flags = ['0', '1'] }
    else none
  | _ => none

/-- Modelled from the spec: `inject` of one propagator (§4.2); a propagator with
nothing to write leaves the headers alone. -/
def TextMapPropagator.Inject (ctx : Context) (h : Header) : TextMapPropagator → Header
  | TextMapPropagator.TraceContext =>
    match ctx.span with
    | some sc => h.Set "traceparent" sc.traceparent
    | none => h
  | TextMapPropagator.Baggage =>
    if (FromContext ctx).members = [] then h else h.Set "baggage" (FromContext ctx).wire

/-- Modelled from the spec: `extract` of one propagator (§4.2); each header is parsed
on its own and a failure only leaves its part of the carrier empty. -/
def TextMapPropagator.Extract (lim : Limits) (ctx : Context) (h : Header) :
    TextMapPropagator → Context
  | TextMapPropagator.TraceContext => { ctx with span := parseTraceparent (h.Get "traceparent") }
  | TextMapPropagator.Baggage => ContextWithBaggage ctx (parseBaggage lim (h.Get "baggage"))

/-- Method `Inject` of a composite propagator: every part injects, in order. -/
def Propagator.Inject (p : Propagator) (ctx : Context) (h : Header) : Header :=
  p.foldl (fun acc q => q.Inject ctx acc) h

/-- Method `Extract` of a composite propagator: every part extracts, in order. -/
def Propagator.Extract (lim : Limits) (p : Propagator) (ctx : Context) (h : Header) :
    Context :=
  p.foldl (fun acc q => q.Extract lim acc h) ctx

/-! ## The request handlers of the two services -/

/-- An HTTP request (`http.Request`): the parts the handlers read or write. -/
structure Request where
  method : String
  url : String
  header : Header
  /-- The context of the request (`r.Context()`, or the one given to
  `http.NewRequestWithContext`). -/
  ctx : Context
  deriving DecidableEq, Repr

/-- A span as its handler leaves it: its name, its identity and the attributes the
handler gave it with `SetAttributes`, in order. -/
structure Span where
  name : String
  spanContext : SpanContext
  attributes : List (String × String)
  deriving DecidableEq, Repr

/-- Method `Span.SetAttributes` with one string attribute (`attribute.String`): the key
gets this value, a later value taking the place of an earlier one. -/
def Span.SetAttributes (sp : Span) (key value : String) : Span :=
  if sp.attributes.any (fun kv => kv.1 = key) then
    { sp with attributes := sp.attributes.map (fun kv => if kv.1 = key then (key, value) else kv) }
  else { sp with attributes := sp.attributes ++ [(key, value)] }

/-- The type `User` of user-service (user-service/main.go:30-34). -/
structure User where
  ID : Int
  Name : String
  Email : String
  deriving DecidableEq, Repr

/-- The type `Order` of order-service (order-service/main.go:29-33). -/
structure Order where
  ID : Int
  UserID : Int
  Amount : Float
  deriving Repr

/-- What the outside world answers while a handler runs. -/
structure HandlerWorld where
  /-- The limits of the baggage package. -/
  lim : Limits
  /-- The trace id the tracer draws for a span without a parent. -/
  newTraceID : String
  /-- The span id the tracer draws for the span the handler starts. -/
  newSpanID : String
  /-- The sampling decision for a span without a parent. -/
  sampleRoot : Bool
  /-- The row `db.QueryRowContext(...).Scan(...)` yields for a user id, with its error. -/
  queryUser : Int → User × Option Error
  /-- The error of `http.NewRequestWithContext` for a URL. -/
  newRequest : String → Option Error
  /-- The error of `client.Do` for a request. -/
  clientDo : Request → Option Error
  /-- The rows `db.QueryContext` yields for a user id, each with the error of its
  `Scan`, and the error of the query itself. -/
  queryOrders : Int → List (Order × Option Error) × Option Error

/-- Modelled from the spec: starting a span (§3: "adding a span ... produces a new
Context Carrier value that is a strict superset of the previous one"): the new context
has the identity of the new span, a child of the span of the parent context when there
is one, and everything else the parent context had. It stands for `tracer.Start`. -/
def tracerStart (hw : HandlerWorld) (ctx : Context) (name : String) : Context × Span :=
  let sc : SpanContext :=
    match ctx.span with
    | some parent => { traceID := parent.traceID, spanID := hw.newSpanID, sampled := parent.sampled }
    | none => { traceID := hw.newTraceID, spanID := hw.newSpanID, sampled := hw.sampleRoot }
  ({ ctx with span := some sc }, { name := name, spanContext := sc, attributes := [] })

/-- Go `strconv.Itoa`. -/
def Itoa (n : Int) : String := toString n

/-- What a run of `getUserHandler` leaves behind. -/
structure UserHandlerResult where
  /-- The span `get-user` as it is ended. -/
  span : Span
  /-- The request `getOrders` built, after injection; `none` when it could not be built. -/
  outbound : Option Request
  /-- The lines given to `log.Printf`. -/
  logs : List String
  /-- The user encoded into the response. -/
  body : User
  deriving Repr

/-- Function `getUser` of user-service (user-service/main.go:62-76): the user and the
lines logged. -/
def UserService.getUser (hw : HandlerWorld) (ctx : Context) (id : Int) : User × List String :=
  let bag := FromContext ctx
  let userType := (bag.GetMember "user.type").value
  let line := "Processing request for user type: " ++ userType
  match hw.queryUser id with
  | (_, some err) => ({ ID := 0, Name := "", Email := "" }, [line, "Error querying user: " ++ err])
  | (user, none) => (user, [line])

/-- Function `getOrders` of user-service (user-service/main.go:78-101): the request it
built, after injection, and the lines logged. -/
def UserService.getOrders (hw : HandlerWorld) (s : GoState) (ctx : Context) (userID : Int) :
    Option Request × List String :=
  let userIDStr := Itoa userID
  let url := "http://localhost:8081/orders?user_id=" ++ userIDStr
  match hw.newRequest url with
  | some err => (none, ["Error creating request: " ++ err])
  | none =>
    let req : Request := { method := "GET", url := url, header := [], ctx := ctx }
    let req := { req with header := s.propagator.Inject ctx req.header }
    match hw.clientDo req with
    | some err => (some req, ["Error calling order service: " ++ err])
    | none => (some req, [])

/-- Function `getUserHandler` (user-service/main.go:36-60), run in a process whose
globals are those of `s`. -/
def UserService.getUserHandler (hw : HandlerWorld) (s : GoState) (r : Request) :
    UserHandlerResult :=
  let ctx := r.ctx
  let userTypeMember := (NewMember "user.type" "premium").1
  let bag := (NewBaggage hw.lim [userTypeMember]).1
  let ctx := ContextWithBaggage ctx bag
  let (ctx, span) := tracerStart hw ctx "get-user"
  let span := bag.Members.foldl
    (fun sp member => sp.SetAttributes ("baggage." ++ member.key) member.value) span
  let (user, logs1) := UserService.getUser hw ctx 1
  let (outbound, logs2) := UserService.getOrders hw s ctx user.ID
  { span := span, outbound := outbound, logs := logs1 ++ logs2, body := user }

/-- What a run of `getOrdersHandler` leaves behind. -/
structure OrdersHandlerResult where
  /-- The context extracted from the headers of the request. -/
  extracted : Context
  /-- The span `get-orders` as it is ended. -/
  span : Span
  /-- The lines given to `log.Printf`. -/
  logs : List String
  /-- The orders encoded into the response. -/
  body : List Order
  deriving Repr

/-- Function `getOrders` of order-service (order-service/main.go:56-75): the orders and
the lines logged; a row whose `Scan` fails is logged and skipped. -/
def OrderService.getOrders (hw : HandlerWorld) (_ctx : Context) (userID : Int) :
    List Order × List String :=
  match hw.queryOrders userID with
  | (_, some err) => ([], ["Error querying orders: " ++ err])
  | (rows, none) =>
    rows.foldl
      (fun acc row =>
        match row with
        | (_, some err) => (acc.1, acc.2 ++ ["Error scanning order: " ++ err])
        | (order, none) => (acc.1 ++ [order], acc.2))
      ([], [])

/-- Function `getOrdersHandler` (order-service/main.go:35-54), run in a process whose
globals are those of `s`. -/
def OrderService.getOrdersHandler (hw : HandlerWorld) (s : GoState) (r : Request) :
    OrdersHandlerResult :=
  let ctx0 := s.propagator.Extract hw.lim r.ctx r.header
  let (ctx, span) := tracerStart hw ctx0 "get-orders"
  let bag := FromContext ctx
  let span := bag.Members.foldl
    (fun sp member => sp.SetAttributes ("baggage." ++ member.key) member.value) span
  let userID : Int := 1
  let (orders, logs) := OrderService.getOrders hw ctx userID
  { extracted := ctx0, span := span, logs := logs, body := orders }

/-- Answers for examples: the usual limits of the baggage package, fixed ids, a
database with one user and no orders, a network that works. -/
def HandlerWorld.quiet : HandlerWorld :=
  { lim := { maxMembers := 180, maxBytes := 8192 }
    newTraceID := "0af7651916cd43dd8448eb211c80319c"
    newSpanID := "b7ad6b7169203331"
    sampleRoot := true
    queryUser := fun id => ({ ID := id, Name := "Ada", Email := "ada@example.com" }, none)
    newRequest := fun _ => none
    clientDo := fun _ => none
    queryOrders := fun _ => ([], none) }

/-! ## Sequences of calls on the discard exporter -/

/-- One call on a `noopExporter`. -/
inductive ExporterOp where
  | Export (ctx : Context) (records : List SdkRecord)
  | ForceFlush (ctx : Context)
  | Shutdown (ctx : Context)
  deriving DecidableEq, Repr

/-- The batch a call is given; none for `ForceFlush` and `Shutdown`. -/
def ExporterOp.records : ExporterOp → List SdkRecord
  | ExporterOp.Export _ records => records
  | ExporterOp.ForceFlush _ => []
  | ExporterOp.Shutdown _ => []

/-- Performs one call: the method named by the operation. -/
def noopExporter.perform (e : noopExporter) : ExporterOp → ExporterCall
  | ExporterOp.Export ctx records => e.Export ctx records
  | ExporterOp.ForceFlush ctx =>
    { err := (e.ForceFlush ctx).1, exporter := (e.ForceFlush ctx).2, records := [] }
  | ExporterOp.Shutdown ctx =>
    { err := (e.Shutdown ctx).1, exporter := (e.Shutdown ctx).2, records := [] }

/-- Performs calls one after the other, each on the exporter the one before left. -/
def noopExporter.performAll (e : noopExporter) : List ExporterOp → List ExporterCall
  | [] => []
  | op :: ops => e.perform op :: (e.perform op).exporter.performAll ops

/-- The environment with one variable set. -/
def Environ.single (key value : String) : Environ :=
  fun k => if k = key then some value else none

/-- Whether an event, when it is a write, goes to standard error. -/
def Event.toStderr : Event → Bool
  | Event.write s _ => s = Stream.stderr
  | _ => true

/-- The events a piece of code added to the trace of the state `s` it started from. -/
def Res.newEvents {α : Type} (r : Res α) (s : GoState) : List Event :=
  r.state.trace.drop s.trace.length

/-- A world in which `resource.Merge` fails, as it does when the schema URL of the
default resource is not the one of the imported `semconv` package; everything else is
as in `World.quiet`. -/
def World.mergeFails : World :=
  { World.quiet with
    resourceMerge := fun _ => (⟨[]⟩, some "cannot merge resource due to conflicting Schema URL") }

/-! ## An example exchange -/

/-- The state of user-service once `Run` has succeeded in the quiet world. -/
def Example.userState : GoState :=
  (Run World.quiet Context.Background "user-service" GoState.init).state

/-- The state of order-service once `Run` has succeeded in the quiet world. -/
def Example.orderState : GoState :=
  (Run World.quiet Context.Background "order-service" GoState.init).state

/-- A request to `/user`; it even brings a baggage header of its own, which
user-service does not read. -/
def Example.inbound : Request :=
  { method := "GET", url := "/user", header := [("baggage", "user.type=basic")],
    ctx := Context.Background }

/-- The request user-service then sends to order-service. -/
def Example.sent : Request :=
  { method := "GET", url := "http://localhost:8081/orders?user_id=1",
    header := [("baggage", "user.type=premium"),
      ("traceparent", "00-0af7651916cd43dd8448eb211c80319c-b7ad6b7169203331-01")],
    ctx := { deadline := none,
             span := some { traceID := "0af7651916cd43dd8448eb211c80319c",
                            spanID := "b7ad6b7169203331", sampled := true },
             baggage := ⟨[⟨"user.type", "premium"⟩]⟩ } }

/-- The same request as order-service receives it: the transport added a header, and
the context is the server's own. -/
def Example.received : Request :=
  { method := "GET", url := "/orders?user_id=1",
    header := ("User-Agent", "Go-http-client/1.1") :: Example.sent.header,
    ctx := Context.Background }

/-! # Properties -/

/-! ## Auxiliary facts -/

/-- Running `m >>= f`: `f` runs on the value and state `m` leaves, unless `m` ended the
process. -/
theorem Go.bind_apply {α β : Type} (m : Go α) (f : α → Go β) (s : GoState) :
    (m >>= f) s =
      match m s with
      | Res.ok a s1 => f a s1
      | Res.exited c s1 => Res.exited c s1 := rfl

/-- Running `pure a` changes nothing. -/
theorem Go.pure_apply {α : Type} (a : α) (s : GoState) : (pure a : Go α) s = Res.ok a s := rfl

/-- Two texts that start with different characters differ, whatever follows. -/
theorem append_ne_of_head_ne (p q x y : String) (c d : Char) (cs ds : List Char)
    (hp : p.data = c :: cs) (hq : q.data = d :: ds) (hcd : c ≠ d) : p ++ x ≠ q ++ y := by
  intro h
  have h2 := congrArg String.data h
  simp only [String.data_append, hp, hq, List.cons_append, List.cons.injEq] at h2
  exact hcd h2.1

/-! ## `getEnv` -/

/-- C9, as stated, fails: with `OTEL_LOGS_EXPORTER=console` in the environment,
`getEnv("OTEL_LOGS_EXPORTER", "console")` returns the default `"console"` although the
key is neither unset nor empty, so "returns d exactly when the key is unset or set to
the empty string" does not hold. -/
theorem getEnv_returns_default_when_set :
    getEnv (Environ.single "OTEL_LOGS_EXPORTER" "console") "OTEL_LOGS_EXPORTER" "console"
        = "console"
      ∧ ¬ (Environ.single "OTEL_LOGS_EXPORTER" "console" "OTEL_LOGS_EXPORTER" = none
          ∨ Environ.single "OTEL_LOGS_EXPORTER" "console" "OTEL_LOGS_EXPORTER" = some "") := by
  decide

/-- C9, amended: `getEnv key d` returns the value of the key whenever that value is
not empty, and returns `d` whenever the key is unset or set to the empty string;
when it returns `d`, the key is unset, empty, or set to `d` itself; the result is
never empty when `d` is not; and with their variables unset or empty the service
name, the service version and the exporter selection are `"mcp-server"`, `"1.0.0"`
and `"console"`. -/
theorem getEnv_value_or_default (env : Environ) (key d : String) :
    (Getenv env key ≠ "" → getEnv env key d = Getenv env key)
      ∧ (env key = none ∨ env key = some "" → getEnv env key d = d)
      ∧ (getEnv env key d = d → env key = none ∨ env key = some "" ∨ env key = some d)
      ∧ (d ≠ "" → getEnv env key d ≠ "")
      ∧ (env "OTEL_SERVICE_NAME" = none ∨ env "OTEL_SERVICE_NAME" = some "" →
          getEnv env "OTEL_SERVICE_NAME" "mcp-server" = "mcp-server")
      ∧ (env "OTEL_SERVICE_VERSION" = none ∨ env "OTEL_SERVICE_VERSION" = some "" →
          getEnv env "OTEL_SERVICE_VERSION" "1.0.0" = "1.0.0")
      ∧ (env "OTEL_LOGS_EXPORTER" = none ∨ env "OTEL_LOGS_EXPORTER" = some "" →
          getEnv env "OTEL_LOGS_EXPORTER" "console" = "console") := by
  have hdef : ∀ k x : String, env k = none ∨ env k = some "" → getEnv env k x = x := by
    intro k x h
    rcases h with h | h <;> simp [getEnv, Getenv, h]
  refine ⟨?_, hdef key d, ?_, ?_, hdef _ _, hdef _ _, hdef _ _⟩
  · intro h
    simp [getEnv, h]
  · intro h
    cases hk : env key with
    | none => exact Or.inl rfl
    | some v =>
      by_cases hv : v = ""
      · exact Or.inr (Or.inl (by rw [hv]))
      · have : getEnv env key d = v := by simp [getEnv, Getenv, hk, hv]
        exact Or.inr (Or.inr (by rw [← h, this]))
  · intro hd
    unfold getEnv
    by_cases hv : Getenv env key = ""
    · simpa [hv] using hd
    · simp [hv]

/-! ## The discard exporter -/

/-- C6: on a `noopExporter`, `Export` returns nil for every context and every batch,
the empty one included, `ForceFlush` and `Shutdown` return nil for every context, and
so does every call of any sequence of calls (an `Export` after a `Shutdown`, say);
no call changes the batch it was given or the exporter, which has no field to keep
anything in. -/
theorem noopExporter_accepts_everything (e : noopExporter) (ctx : Context)
    (records : List SdkRecord) (ops : List ExporterOp) :
    (e.Export ctx records).err = none
      ∧ (e.Export ctx records).records = records
      ∧ (e.Export ctx records).exporter = e
      ∧ (e.Export ctx []).err = none
      ∧ e.ForceFlush ctx = (none, e)
      ∧ e.Shutdown ctx = (none, e)
      ∧ ((e.Shutdown ctx).2.Export ctx records).err = none
      ∧ (e.performAll ops).length = ops.length
      ∧ List.Forall₂ (fun op call => call.err = none ∧ call.exporter = e
          ∧ call.records = op.records) ops (e.performAll ops) := by
  refine ⟨rfl, rfl, rfl, rfl, rfl, rfl, rfl, ?_, ?_⟩
  · induction ops with
    | nil => rfl
    | cons op ops ih =>
      cases op <;> simpa [noopExporter.performAll, noopExporter.perform, noopExporter.Export,
        noopExporter.ForceFlush, noopExporter.Shutdown] using ih
  · induction ops with
    | nil => exact List.Forall₂.nil
    | cons op ops ih =>
      cases op <;>
        exact List.Forall₂.cons ⟨rfl, rfl, rfl⟩ ih

/-! ## The `Logger` methods -/

/-- C10: for every context, message and list of attributes, each of `Debug`, `Info`,
`Warn` and `Error` reads the clock once and hands the underlying logger exactly one
record, with the context it was given: the severity is debug, info, warn and error
in turn, the body is the message as a string value, and the attributes are the given
ones in the given order. The four results differ in the severity only. -/
theorem Logger_methods_emit_one_record (w : World) (l : Logger) (ctx : Context)
    (msg : String) (attrs : List KeyValue) (s : GoState) :
    l.Debug w ctx msg attrs s = Res.ok ()
        { s with ticks := s.ticks + 1
                 trace := s.trace ++ [Event.emit l.logger.scope ctx
                   { timestamp := w.clock s.ticks, severity := SeverityDebug,
                     body := Value.string msg, attrs := attrs }] }
      ∧ l.Info w ctx msg attrs s = Res.ok ()
        { s with ticks := s.ticks + 1
                 trace := s.trace ++ [Event.emit l.logger.scope ctx
                   { timestamp := w.clock s.ticks, severity := SeverityInfo,
                     body := Value.string msg, attrs := attrs }] }
      ∧ l.Warn w ctx msg attrs s = Res.ok ()
        { s with ticks := s.ticks + 1
                 trace := s.trace ++ [Event.emit l.logger.scope ctx
                   { timestamp := w.clock s.ticks, severity := SeverityWarn,
                     body := Value.string msg, attrs := attrs }] }
      ∧ l.Error w ctx msg attrs s = Res.ok ()
        { s with ticks := s.ticks + 1
                 trace := s.trace ++ [Event.emit l.logger.scope ctx
                   { timestamp := w.clock s.ticks, severity := SeverityError,
                     body := Value.string msg, attrs := attrs }] }
      ∧ [SeverityDebug, SeverityInfo, SeverityWarn, SeverityError].Nodup := by
  refine ⟨rfl, rfl, rfl, rfl, by decide⟩

/-! ## `setupOTelLogging` -/

/-- C1: `setupOTelLogging` reads the exporter selection at main.go:81, which it reaches
when `resource.New` returned no error. For every value `v` read from
`OTEL_LOGS_EXPORTER` that is not empty and is none of `otlp`, `console`, `none`, it then
returns a non-nil error whose message is `unsupported OTEL_LOGS_EXPORTER: ` followed by
`v`, returns a nil cleanup, and leaves the process as it was, so no global logger
provider is installed. When the variable is unset or empty, the selection is `console`
and no error with such a message is returned. (Where `resource.New` failed and the
selection is never read, the result is still a non-nil error with a nil cleanup and an
unchanged process.) -/
theorem setupOTelLogging_unsupported_selection (w : World) (ctx : Context) (s : GoState) :
    (∀ v, w.env "OTEL_LOGS_EXPORTER" = some v → v ≠ "" → v ≠ "otlp" → v ≠ "console" →
        v ≠ "none" →
        (∃ msg, setupOTelLogging w ctx s = Res.ok (none, some msg) s)
          ∧ ((w.resourceNew (setupOTelLogging.attributes w.env)).2 = none →
              setupOTelLogging w ctx s
                = Res.ok (none, some ("unsupported OTEL_LOGS_EXPORTER: " ++ v)) s))
      ∧ (w.env "OTEL_LOGS_EXPORTER" = none ∨ w.env "OTEL_LOGS_EXPORTER" = some "" →
          getEnv w.env "OTEL_LOGS_EXPORTER" "console" = "console"
            ∧ ∀ v c s1, setupOTelLogging w ctx s
                ≠ Res.ok (c, some ("unsupported OTEL_LOGS_EXPORTER: " ++ v)) s1) := by
  constructor
  · intro v hv h0 h1 h2 h3
    have hsel : getEnv w.env "OTEL_LOGS_EXPORTER" "console" = v := by
      simp [getEnv, Getenv, hv, h0]
    rcases hr : w.resourceNew (setupOTelLogging.attributes w.env) with ⟨res, _ | e⟩
    · have hrun : setupOTelLogging w ctx s
          = Res.ok (none, some ("unsupported OTEL_LOGS_EXPORTER: " ++ v)) s := by
        simp [setupOTelLogging, hr, hsel, h1, h2, h3, Go.pure_apply]
      exact ⟨⟨_, hrun⟩, fun _ => hrun⟩
    · refine ⟨⟨"failed to create resource: " ++ e, ?_⟩, fun h => by simp at h⟩
      simp [setupOTelLogging, hr, Go.pure_apply]
  · intro hunset
    have hsel : getEnv w.env "OTEL_LOGS_EXPORTER" "console" = "console" := by
      rcases hunset with h | h <;> simp [getEnv, Getenv, h]
    refine ⟨hsel, ?_⟩
    intro v c s1
    rcases hr : w.resourceNew (setupOTelLogging.attributes w.env) with ⟨res, _ | e⟩
    · cases hc : w.stdoutlogNew
          [StdoutlogOption.WithWriter Stream.stderr, StdoutlogOption.WithPrettyPrint] with
      | none =>
        simp [setupOTelLogging, hr, hsel, hc, setupOTelLogging.install, Go.bind_apply,
          Go.pure_apply, SetLoggerProvider]
      | some e =>
        have hne := append_ne_of_head_ne "failed to create console exporter: "
          "unsupported OTEL_LOGS_EXPORTER: " e v 'f' 'u' _ _ rfl rfl (by decide)
        simp [setupOTelLogging, hr, hsel, hc, Go.pure_apply, hne]
    · have hne := append_ne_of_head_ne "failed to create resource: "
        "unsupported OTEL_LOGS_EXPORTER: " e v 'f' 'u' _ _ rfl rfl (by decide)
      simp [setupOTelLogging, hr, Go.pure_apply, hne]

/-- Witness for C1: with `OTEL_LOGS_EXPORTER=kafka` and a resource that builds,
`setupOTelLogging` returns the error `unsupported OTEL_LOGS_EXPORTER: kafka`, no
cleanup, and leaves the initial state as it is. -/
theorem setupOTelLogging_unsupported_selection_witness :
    setupOTelLogging { World.quiet with env := Environ.single "OTEL_LOGS_EXPORTER" "kafka" }
        Context.Background GoState.init
      = Res.ok (none, some "unsupported OTEL_LOGS_EXPORTER: kafka") GoState.init :=
  ((setupOTelLogging_unsupported_selection
      { World.quiet with env := Environ.single "OTEL_LOGS_EXPORTER" "kafka" }
      Context.Background GoState.init).1 "kafka" rfl (by decide) (by decide) (by decide)
      (by decide)).2 rfl

/-! ## The streams the MCP server writes to -/

/-- When `setupOTelLogging` returns a cleanup, the exporter of the provider it built is
the one its selection names, and that provider is the new global one. -/
theorem setupOTelLogging_ok (w : World) (ctx : Context) (s s1 : GoState) (c : Cleanup)
    (h : setupOTelLogging w ctx s = Res.ok (some c, none) s1) :
    s1 = { s with loggerProvider := some c.loggerProvider }
      ∧ ((getEnv w.env "OTEL_LOGS_EXPORTER" "console" = "otlp"
            ∧ c.loggerProvider.batchExporter = Exporter.otlploghttp
                (getEnv w.env "OTEL_EXPORTER_OTLP_ENDPOINT" "localhost:4318")
                [("Authorization", getEnv w.env "OTEL_EXPORTER_OTLP_AUTH_TOKEN" "")])
        ∨ (getEnv w.env "OTEL_LOGS_EXPORTER" "console" = "console"
            ∧ c.loggerProvider.batchExporter = Exporter.stdoutlog
                [StdoutlogOption.WithWriter Stream.stderr, StdoutlogOption.WithPrettyPrint])
        ∨ (getEnv w.env "OTEL_LOGS_EXPORTER" "console" = "none"
            ∧ c.loggerProvider.batchExporter = Exporter.noop {})) := by
  unfold setupOTelLogging at h
  rcases hr : w.resourceNew (setupOTelLogging.attributes w.env) with ⟨res, _ | e⟩
  · simp only [hr] at h
    split_ifs at h with h1 h2 h3
    · cases hc : w.otlploghttpNew (getEnv w.env "OTEL_EXPORTER_OTLP_ENDPOINT" "localhost:4318")
          [("Authorization", getEnv w.env "OTEL_EXPORTER_OTLP_AUTH_TOKEN" "")] with
      | none =>
        simp only [hc, setupOTelLogging.install, Go.bind_apply, SetLoggerProvider, Go.pure_apply,
          Res.ok.injEq, Prod.mk.injEq, Option.some.injEq, and_true] at h
        obtain ⟨hc1, hs1⟩ := h
        subst hc1
        exact ⟨hs1.symm, Or.inl ⟨h1, rfl⟩⟩
      | some e => simp [hc, Go.pure_apply] at h
    · cases hc : w.stdoutlogNew
          [StdoutlogOption.WithWriter Stream.stderr, StdoutlogOption.WithPrettyPrint] with
      | none =>
        simp only [hc, setupOTelLogging.install, Go.bind_apply, SetLoggerProvider, Go.pure_apply,
          Res.ok.injEq, Prod.mk.injEq, Option.some.injEq, and_true] at h
        obtain ⟨hc1, hs1⟩ := h
        subst hc1
        exact ⟨hs1.symm, Or.inr (Or.inl ⟨h2, rfl⟩)⟩
      | some e => simp [hc, Go.pure_apply] at h
    · simp only [setupOTelLogging.install, Go.bind_apply, SetLoggerProvider, Go.pure_apply,
          Res.ok.injEq, Prod.mk.injEq, Option.some.injEq, and_true] at h
      obtain ⟨hc1, hs1⟩ := h
      subst hc1
      exact ⟨hs1.symm, Or.inr (Or.inr ⟨h3, rfl⟩)⟩
    · simp [Go.pure_apply] at h
  · simp [hr, Go.pure_apply] at h

/-- The function `setupOTelLogging` always returns, with an error and no cleanup or with a cleanup and no
error, and adds nothing to the trace. -/
theorem setupOTelLogging_cases (w : World) (ctx : Context) (s : GoState) :
    (∃ msg, setupOTelLogging w ctx s = Res.ok (none, some msg) s)
      ∨ (∃ c : Cleanup, setupOTelLogging w ctx s
            = Res.ok (some c, none) { s with loggerProvider := some c.loggerProvider }) := by
  unfold setupOTelLogging
  rcases w.resourceNew (setupOTelLogging.attributes w.env) with ⟨res, _ | e⟩
  · simp only
    split_ifs with h1 h2 h3
    · cases hc : w.otlploghttpNew (getEnv w.env "OTEL_EXPORTER_OTLP_ENDPOINT" "localhost:4318")
          [("Authorization", getEnv w.env "OTEL_EXPORTER_OTLP_AUTH_TOKEN" "")] with
      | none => exact Or.inr ⟨⟨⟨res, Exporter.otlploghttp _ _⟩⟩, rfl⟩
      | some e => exact Or.inl ⟨_, rfl⟩
    · cases hc : w.stdoutlogNew
          [StdoutlogOption.WithWriter Stream.stderr, StdoutlogOption.WithPrettyPrint] with
      | none => exact Or.inr ⟨⟨⟨res, Exporter.stdoutlog _⟩⟩, rfl⟩
      | some e => exact Or.inl ⟨_, rfl⟩
    · exact Or.inr ⟨⟨⟨res, Exporter.noop {}⟩⟩, rfl⟩
    · exact Or.inl ⟨_, rfl⟩
  · exact Or.inl ⟨_, rfl⟩

/-- C8: the MCP server itself writes diagnostics to standard error only. In every
run of `main`, with `setupOTelLogging` and the deferred cleanup it contains, every write
of the program goes to standard error (the protocol traffic of `Serve` is the MCP
library's, not a write of the program). For the `console` selection the exporter
handed to the batch processor is the one `stdoutlog.New` built with standard error as
its writer, and no selection gives a console exporter with another writer;
`setupOTelLogging` itself writes nothing, and the cleanup writes to standard error
only, from whatever state it is called. -/
theorem McpServer_diagnostics_go_to_stderr (w : World) (ctx : Context) (s : GoState) :
    (runMain w (McpServer.main w)).2.trace.all Event.toStderr = true
      ∧ (∀ c s1, setupOTelLogging w ctx s = Res.ok (some c, none) s1 →
          getEnv w.env "OTEL_LOGS_EXPORTER" "console" = "console" →
          c.loggerProvider.batchExporter = Exporter.stdoutlog
            [StdoutlogOption.WithWriter Stream.stderr, StdoutlogOption.WithPrettyPrint])
      ∧ (∀ c s1 opts, setupOTelLogging w ctx s = Res.ok (some c, none) s1 →
          c.loggerProvider.batchExporter = Exporter.stdoutlog opts →
          opts = [StdoutlogOption.WithWriter Stream.stderr, StdoutlogOption.WithPrettyPrint])
      ∧ (setupOTelLogging w ctx s).state.trace = s.trace
      ∧ (∀ c : Cleanup, ∃ tail, (c.call w s).state.trace = s.trace ++ tail
          ∧ tail.all Event.toStderr = true) := by
  refine ⟨?_, ?_, ?_, ?_, ?_⟩
  · rcases setupOTelLogging_cases w Context.Background GoState.init with ⟨msg, h⟩ | ⟨c, h⟩
    · simp only [runMain, McpServer.main, Go.bind_apply, h]
      rfl
    · simp only [runMain, McpServer.main, Go.bind_apply, h]
      cases hsd : w.loggerProviderShutdown c.loggerProvider
          (Context.WithTimeout Context.Background (w.clock 3) (5 * Second)) with
      | none =>
        simp [Go.bind_apply, Go.pure_apply, Fprintf, observe, GoState.init,
          deferCall, Logger.Info, timeNow, NewLogger, runDefers, Deferred.call, callCleanup,
          Cleanup.call, hsd, Event.toStderr]
      | some e =>
        simp [Go.bind_apply, Go.pure_apply, Fprintf, observe, GoState.init,
          deferCall, Logger.Info, timeNow, NewLogger, runDefers, Deferred.call, callCleanup,
          Cleanup.call, hsd, Event.toStderr]
  · intro c s1 h hsel
    rcases (setupOTelLogging_ok w ctx s s1 c h).2 with h1 | h1 | h1
    · rw [hsel] at h1
      exact absurd h1.1 (by decide)
    · exact h1.2
    · rw [hsel] at h1
      exact absurd h1.1 (by decide)
  · intro c s1 opts h hex
    rcases (setupOTelLogging_ok w ctx s s1 c h).2 with h1 | h1 | h1
    · rw [h1.2] at hex
      cases hex
    · rw [h1.2] at hex
      cases hex
      rfl
    · rw [h1.2] at hex
      cases hex
  · rcases setupOTelLogging_cases w ctx s with ⟨msg, h⟩ | ⟨c, h⟩ <;> rw [h] <;> rfl
  · intro c
    cases hsd : w.loggerProviderShutdown c.loggerProvider
        (Context.WithTimeout Context.Background (w.clock s.ticks) (5 * Second)) with
    | none =>
      refine ⟨[Event.loggerProviderShutdown c.loggerProvider
        (Context.WithTimeout Context.Background (w.clock s.ticks) (5 * Second))], ?_, rfl⟩
      simp [Cleanup.call, Go.bind_apply, Go.pure_apply, timeNow, observe, hsd, Res.state]
    | some e =>
      refine ⟨[Event.loggerProviderShutdown c.loggerProvider
        (Context.WithTimeout Context.Background (w.clock s.ticks) (5 * Second)),
        Event.write Stream.stderr ("Error shutting down logger provider: " ++ e ++ "\n")], ?_, rfl⟩
      simp [Cleanup.call, Go.bind_apply, Go.pure_apply, timeNow, observe, hsd, Res.state, Fprintf]

/-- Witness for C8: in the quiet world, where the selection defaults to `console`, the
provider `setupOTelLogging` installs exports through the console exporter built with
standard error as its writer. -/
theorem McpServer_diagnostics_go_to_stderr_witness :
    setupOTelLogging World.quiet Context.Background GoState.init
        = Res.ok (some ⟨⟨⟨[("service.name", "mcp-server"), ("service.version", "1.0.0")]⟩,
            Exporter.stdoutlog [StdoutlogOption.WithWriter Stream.stderr,
              StdoutlogOption.WithPrettyPrint]⟩⟩, none)
          { GoState.init with
              loggerProvider := some ⟨⟨[("service.name", "mcp-server"),
                  ("service.version", "1.0.0")]⟩,
                Exporter.stdoutlog [StdoutlogOption.WithWriter Stream.stderr,
                  StdoutlogOption.WithPrettyPrint]⟩ }
      ∧ (⟨⟨[("service.name", "mcp-server"), ("service.version", "1.0.0")]⟩,
            Exporter.stdoutlog [StdoutlogOption.WithWriter Stream.stderr,
              StdoutlogOption.WithPrettyPrint]⟩ : LoggerProvider).batchExporter
          = Exporter.stdoutlog [StdoutlogOption.WithWriter Stream.stderr,
              StdoutlogOption.WithPrettyPrint] :=
  ⟨rfl, (McpServer_diagnostics_go_to_stderr World.quiet Context.Background GoState.init).2.1
    ⟨⟨⟨[("service.name", "mcp-server"), ("service.version", "1.0.0")]⟩,
      Exporter.stdoutlog [StdoutlogOption.WithWriter Stream.stderr,
        StdoutlogOption.WithPrettyPrint]⟩⟩ _ rfl (by decide)⟩

/-! ## `telemetry.Run` -/

/-- C7: `Run` always returns, with a shutdown function that can be called. When the
resource merge fails, or when the OTLP exporter cannot be created, it returns the
error with the no-op function and leaves the process as it was, so the global tracer
provider and propagator are not replaced; the no-op function returns nil for every
context and changes nothing. Only when both steps succeed does `Run` return a nil
error, the provider and the composite propagator being the new globals and the
function returned being the one that calls `Shutdown` on that provider and returns
exactly the error `Shutdown` returned. -/
theorem Run_returns_a_callable_shutdown (w : World) (ctx : Context) (serviceName : String)
    (s : GoState) :
    (∀ res err, w.resourceMerge serviceName = (res, some err) →
        Run w ctx serviceName s = Res.ok (ShutdownFunc.noop, some err) s)
      ∧ (∀ res err, w.resourceMerge serviceName = (res, none) → w.otlptracehttpNew = some err →
        Run w ctx serviceName s = Res.ok (ShutdownFunc.noop, some err) s)
      ∧ (∀ c s1, ShutdownFunc.noop.call w c s1 = Res.ok none s1)
      ∧ (∀ res, w.resourceMerge serviceName = (res, none) → w.otlptracehttpNew = none →
        Run w ctx serviceName s
            = Res.ok (ShutdownFunc.shutdownProvider { resource := res }, none)
                { s with tracerProvider := some { resource := res }
                         propagator := [TextMapPropagator.TraceContext,
                           TextMapPropagator.Baggage] }
          ∧ ∀ c s1, (ShutdownFunc.shutdownProvider { resource := res }).call w c s1
              = Res.ok (w.tracerProviderShutdown { resource := res } c)
                  { s1 with trace := s1.trace
                      ++ [Event.tracerProviderShutdown { resource := res } c] })
      ∧ (∀ f err s1, Run w ctx serviceName s = Res.ok (f, err) s1 →
          (err = none ↔ f ≠ ShutdownFunc.noop))
      ∧ ∃ f err s1, Run w ctx serviceName s = Res.ok (f, err) s1 := by
  have hcases : (∃ err, Run w ctx serviceName s = Res.ok (ShutdownFunc.noop, some err) s)
      ∨ (∃ tp s1, Run w ctx serviceName s = Res.ok (ShutdownFunc.shutdownProvider tp, none) s1) := by
    unfold Run
    rcases w.resourceMerge serviceName with ⟨res, _ | e⟩
    · cases w.otlptracehttpNew with
      | none => exact Or.inr ⟨_, _, rfl⟩
      | some e => exact Or.inl ⟨_, rfl⟩
    · exact Or.inl ⟨_, rfl⟩
  refine ⟨?_, ?_, ?_, ?_, ?_, ?_⟩
  · intro res err h
    simp [Run, h, Go.pure_apply]
  · intro res err h h2
    simp [Run, h, h2, Go.pure_apply]
  · intro c s1
    rfl
  · intro res h h2
    refine ⟨?_, ?_⟩
    · simp [Run, h, h2, Go.bind_apply, Go.pure_apply, SetTracerProvider, SetTextMapPropagator,
        NewCompositeTextMapPropagator]
    · intro c s1
      cases hsd : w.tracerProviderShutdown { resource := res } c <;>
        simp [ShutdownFunc.call, Go.bind_apply, Go.pure_apply, observe, hsd]
  · intro f err s1 h
    rcases hcases with ⟨e, h2⟩ | ⟨tp, s2, h2⟩
    · rw [h2] at h
      cases h
      simp
    · rw [h2] at h
      cases h
      simp
  · rcases hcases with ⟨e, h2⟩ | ⟨tp, s2, h2⟩
    · exact ⟨_, _, _, h2⟩
    · exact ⟨_, _, _, h2⟩

/-- Witness for C7: when the OTLP exporter cannot be created, `Run` returns the error
and the no-op function and leaves the initial state as it is. -/
theorem Run_returns_a_callable_shutdown_witness :
    Run { World.quiet with otlptracehttpNew := some "no endpoint" } Context.Background
        "order-service" GoState.init
      = Res.ok (ShutdownFunc.noop, some "no endpoint") GoState.init :=
  (Run_returns_a_callable_shutdown { World.quiet with otlptracehttpNew := some "no endpoint" }
    Context.Background "order-service" GoState.init).2.1 _ _ rfl rfl

/-! ## The `main` functions -/

/-- The MCP server stops when `setupOTelLogging` fails: `main` reports the error on
standard error and ends the process with status 1; nothing else happens. -/
theorem McpServer_main_stops_on_setup_error (w : World) (msg : Error)
    (h : setupOTelLogging w Context.Background GoState.init
      = Res.ok (none, some msg) GoState.init) :
    runMain w (McpServer.main w)
      = (1, { GoState.init with
                trace := [Event.write Stream.stderr
                  ("Failed to setup logging: " ++ msg ++ "\n")] }) := by
  simp only [runMain, McpServer.main, Go.bind_apply, h]
  rfl

/-- C3, the code where `telemetry.Run` fails (here `resource.Merge` returns an error):
`main` of user-service and `main` of order-service report the error on standard error
and then go on: the handler is registered and `http.ListenAndServe` is called, the
process ending only when the listener returns. The deferred calls are still pending
at that point. -/
theorem services_serve_after_failed_Run :
    runMain World.mergeFails (UserService.main World.mergeFails)
        = (1, { GoState.init with
                  trace := [Event.write Stream.stderr
                      "Failed to run OpenTelemetry: cannot merge resource due to conflicting Schema URL\n",
                    Event.handleFunc "/user",
                    Event.listenAndServe ":8080",
                    Event.write Stream.stderr
                      "listen tcp :8080: bind: address already in use\n"]
                  defers := [Deferred.shutdownTelemetry ShutdownFunc.noop,
                    Deferred.exitWith 0] })
      ∧ runMain World.mergeFails (OrderService.main World.mergeFails)
        = (1, { GoState.init with
                  trace := [Event.write Stream.stderr
                      "Failed to run OpenTelemetry: cannot merge resource due to conflicting Schema URL\n",
                    Event.handleFunc "/orders",
                    Event.listenAndServe ":8081",
                    Event.write Stream.stderr
                      "listen tcp :8081: bind: address already in use\n"]
                  defers := [Deferred.shutdownTelemetry ShutdownFunc.noop,
                    Deferred.exitWith 0] }) := by
  constructor <;> decide

/-- C4, the code on every run: in user-service and in order-service the process ends
with status 1 through `log.Fatal`, whose `os.Exit` runs no deferred call, so no run of
`main` ever calls the shutdown of a provider. Where `Run` succeeded and the listener
returned an error (the world `World.quiet`), the shutdown function `Run` returned is
still waiting among the deferred calls when the process ends. -/
theorem services_never_call_shutdown (w : World) :
    (runMain w (UserService.main w)).1 = 1
      ∧ (runMain w (UserService.main w)).2.trace.any Event.isShutdown = false
      ∧ (runMain w (OrderService.main w)).1 = 1
      ∧ (runMain w (OrderService.main w)).2.trace.any Event.isShutdown = false
      ∧ runMain World.quiet (UserService.main World.quiet)
        = (1, { GoState.init with
                  trace := [Event.handleFunc "/user", Event.listenAndServe ":8080",
                    Event.write Stream.stderr
                      "listen tcp :8080: bind: address already in use\n"]
                  tracerProvider := some ⟨⟨[("service.name", "user-service")]⟩⟩
                  propagator := [TextMapPropagator.TraceContext, TextMapPropagator.Baggage]
                  defers := [Deferred.shutdownTelemetry (ShutdownFunc.shutdownProvider
                      ⟨⟨[("service.name", "user-service")]⟩⟩),
                    Deferred.exitWith 0] }) := by
  have hu : (runMain w (UserService.main w)).1 = 1
      ∧ (runMain w (UserService.main w)).2.trace.any Event.isShutdown = false := by
    simp only [runMain, UserService.main, Run, Go.bind_apply]
    cases w.sqlOpen with
    | some e => exact ⟨rfl, rfl⟩
    | none =>
      rcases w.resourceMerge "user-service" with ⟨res, _ | e⟩
      · cases w.otlptracehttpNew with
        | none => exact ⟨rfl, rfl⟩
        | some e => exact ⟨rfl, rfl⟩
      · exact ⟨rfl, rfl⟩
  have ho : (runMain w (OrderService.main w)).1 = 1
      ∧ (runMain w (OrderService.main w)).2.trace.any Event.isShutdown = false := by
    simp only [runMain, OrderService.main, Run, Go.bind_apply]
    cases w.sqlOpen with
    | some e => exact ⟨rfl, rfl⟩
    | none =>
      rcases w.resourceMerge "order-service" with ⟨res, _ | e⟩
      · cases w.otlptracehttpNew with
        | none => exact ⟨rfl, rfl⟩
        | some e => exact ⟨rfl, rfl⟩
      · exact ⟨rfl, rfl⟩
  exact ⟨hu.1, hu.2, ho.1, ho.2, by decide⟩

/-! ## The contexts given to a provider's shutdown -/

/-- C5, as stated, fails: the deferred shutdown call that `main` of user-service
registers (the world is `World.quiet`, where `Run` succeeds) calls the tracer
provider's `Shutdown` with `context.Background()`, a context without a deadline. -/
theorem UserService_deferred_shutdown_without_deadline :
    (runMain World.quiet (UserService.main World.quiet)).2.defers
        = [Deferred.shutdownTelemetry (ShutdownFunc.shutdownProvider
            ⟨⟨[("service.name", "user-service")]⟩⟩), Deferred.exitWith 0]
      ∧ (((Deferred.shutdownTelemetry (ShutdownFunc.shutdownProvider
            ⟨⟨[("service.name", "user-service")]⟩⟩)).call World.quiet GoState.init).newEvents
          GoState.init).filterMap Event.shutdownContext = [Context.Background]
      ∧ Context.Background.deadline = none := by
  decide

/-- C5, amended: the cleanup of the MCP server calls the logger provider's `Shutdown`
once, with a context whose deadline is 5 seconds after the clock reading of the call.
The deferred shutdown call of user-service and of order-service passes
`context.Background()`, which has no deadline, to the function `Run` returned: the
function of a successful `Run` hands that context to the tracer provider's `Shutdown`,
the no-op function of a failed `Run` calls no provider. These are the only kinds of
call either `main` defers besides the exit. -/
theorem shutdown_contexts (w : World) (s : GoState) (c : Cleanup) (tp : TracerProvider) :
    ((c.call w s).newEvents s).filterMap Event.shutdownContext
        = [{ deadline := some (w.clock s.ticks + 5 * Second), span := none, baggage := ⟨[]⟩ }]
      ∧ (((Deferred.shutdownTelemetry (ShutdownFunc.shutdownProvider tp)).call w s).newEvents
          s).filterMap Event.shutdownContext = [Context.Background]
      ∧ (((Deferred.shutdownTelemetry ShutdownFunc.noop).call w s).newEvents s) = []
      ∧ Context.Background.deadline = none
      ∧ (∀ d ∈ (runMain w (UserService.main w)).2.defers,
          d = Deferred.exitWith 0 ∨ ∃ f, d = Deferred.shutdownTelemetry f)
      ∧ (∀ d ∈ (runMain w (OrderService.main w)).2.defers,
          d = Deferred.exitWith 0 ∨ ∃ f, d = Deferred.shutdownTelemetry f) := by
  refine ⟨?_, ?_, ?_, rfl, ?_, ?_⟩
  · cases hsd : w.loggerProviderShutdown c.loggerProvider
        { deadline := some (w.clock s.ticks + 5 * Second), span := none, baggage := ⟨[]⟩ } <;>
      simp [Cleanup.call, Go.bind_apply, Go.pure_apply, timeNow, observe, hsd, Res.state,
        Res.newEvents, Fprintf, Event.shutdownContext, Context.WithTimeout, Context.Background]
  · cases hsd : w.tracerProviderShutdown tp Context.Background <;>
      simp [Deferred.call, ShutdownFunc.call, Go.bind_apply, Go.pure_apply, observe, hsd,
        Res.state, Res.newEvents, Fprintf, Event.shutdownContext]
  · simp [Deferred.call, ShutdownFunc.call, Go.bind_apply, Go.pure_apply, Res.state,
      Res.newEvents]
  · simp only [runMain, UserService.main, Run, Go.bind_apply]
    cases w.sqlOpen with
    | some e => intro d hd; cases hd
    | none =>
      rcases w.resourceMerge "user-service" with ⟨res, _ | e⟩
      · cases w.otlptracehttpNew with
        | none =>
          intro d hd
          have hd2 : d ∈ [Deferred.shutdownTelemetry (ShutdownFunc.shutdownProvider ⟨res⟩),
            Deferred.exitWith 0] := hd
          simp only [List.mem_cons, List.mem_singleton, List.not_mem_nil, or_false] at hd2
          rcases hd2 with h | h
          · exact Or.inr ⟨_, h⟩
          · exact Or.inl h
        | some e =>
          intro d hd
          have hd2 : d ∈ [Deferred.shutdownTelemetry ShutdownFunc.noop,
            Deferred.exitWith 0] := hd
          simp only [List.mem_cons, List.mem_singleton, List.not_mem_nil, or_false] at hd2
          rcases hd2 with h | h
          · exact Or.inr ⟨_, h⟩
          · exact Or.inl h
      · intro d hd
        have hd2 : d ∈ [Deferred.shutdownTelemetry ShutdownFunc.noop,
          Deferred.exitWith 0] := hd
        simp only [List.mem_cons, List.mem_singleton, List.not_mem_nil, or_false] at hd2
        rcases hd2 with h | h
        · exact Or.inr ⟨_, h⟩
        · exact Or.inl h
  · simp only [runMain, OrderService.main, Run, Go.bind_apply]
    cases w.sqlOpen with
    | some e => intro d hd; cases hd
    | none =>
      rcases w.resourceMerge "order-service" with ⟨res, _ | e⟩
      · cases w.otlptracehttpNew with
        | none =>
          intro d hd
          have hd2 : d ∈ [Deferred.shutdownTelemetry (ShutdownFunc.shutdownProvider ⟨res⟩),
            Deferred.exitWith 0] := hd
          simp only [List.mem_cons, List.mem_singleton, List.not_mem_nil, or_false] at hd2
          rcases hd2 with h | h
          · exact Or.inr ⟨_, h⟩
          · exact Or.inl h
        | some e =>
          intro d hd
          have hd2 : d ∈ [Deferred.shutdownTelemetry ShutdownFunc.noop,
            Deferred.exitWith 0] := hd
          simp only [List.mem_cons, List.mem_singleton, List.not_mem_nil, or_false] at hd2
          rcases hd2 with h | h
          · exact Or.inr ⟨_, h⟩
          · exact Or.inl h
      · intro d hd
        have hd2 : d ∈ [Deferred.shutdownTelemetry ShutdownFunc.noop,
          Deferred.exitWith 0] := hd
        simp only [List.mem_cons, List.mem_singleton, List.not_mem_nil, or_false] at hd2
        rcases hd2 with h | h
        · exact Or.inr ⟨_, h⟩
        · exact Or.inl h

/-! ## Baggage from user-service to order-service -/

/-- The member `user.type=premium` takes 17 bytes on the wire. -/
theorem premium_wire_size :
    (Baggage.wire ⟨[⟨"user.type", "premium"⟩]⟩).utf8ByteSize = 17 := by
  decide

/-- Within limits that admit one member of 17 bytes, inserting `user.type=premium`
into the empty set succeeds. -/
theorem SetMember_premium (lim : Limits) (h : 1 ≤ lim.maxMembers ∧ 17 ≤ lim.maxBytes) :
    Baggage.SetMember lim ⟨[]⟩ ⟨"user.type", "premium"⟩
      = (⟨[⟨"user.type", "premium"⟩]⟩, none) := by
  have h1 : ¬ (lim.maxMembers < 1 ∨ lim.maxBytes < 17) := by omega
  simp only [Baggage.SetMember, List.any_nil, Bool.false_eq_true, if_false, List.nil_append,
    List.length_singleton, premium_wire_size, h1]

/-- Within such limits `baggage.New` of the one member is the set with that member. -/
theorem NewBaggage_premium (lim : Limits) (h : 1 ≤ lim.maxMembers ∧ 17 ≤ lim.maxBytes) :
    NewBaggage lim [(NewMember "user.type" "premium").1]
      = (⟨[⟨"user.type", "premium"⟩]⟩, none) := by
  simp only [NewBaggage, NewMember, List.foldl, SetMember_premium lim h]

/-- Within such limits the header `user.type=premium` parses to the one member. -/
theorem parseBaggage_premium (lim : Limits) (h : 1 ≤ lim.maxMembers ∧ 17 ≤ lim.maxBytes) :
    parseBaggage lim "user.type=premium" = ⟨[⟨"user.type", "premium"⟩]⟩ := by
  have hp : (splitChars ',' "user.type=premium".data).filterMap parseMember
      = [⟨"user.type", "premium"⟩] := by decide
  simp only [parseBaggage, hp, List.foldl, SetMember_premium lim h]

/-- After a successful `Run` the global propagator is the composite of trace context
and baggage. -/
theorem Run_ok_propagator (w : World) (ctx : Context) (name : String) (s0 s1 : GoState)
    (f : ShutdownFunc) (h : Run w ctx name s0 = Res.ok (f, none) s1) :
    s1.propagator = [TextMapPropagator.TraceContext, TextMapPropagator.Baggage] := by
  unfold Run at h
  rcases hr : w.resourceMerge name with ⟨res, _ | e⟩
  · cases hx : w.otlptracehttpNew with
    | none =>
      simp only [hr, hx, Go.bind_apply, Go.pure_apply, SetTracerProvider, SetTextMapPropagator,
        NewCompositeTextMapPropagator, Res.ok.injEq] at h
      rw [← h.2]
    | some e => simp [hr, hx, Go.pure_apply] at h
  · simp [hr, Go.pure_apply] at h

/-- Reading a key that was just set gives the value set. -/
theorem Header.Get_Set (h : Header) (key value : String) : (h.Set key value).Get key = value := by
  simp [Header.Set, Header.Get]

/-- The request `getOrders` of user-service builds carries the context it was given,
and its headers are what the global propagator injects into empty headers. -/
theorem UserService.getOrders_request (hw : HandlerWorld) (s : GoState) (ctx : Context)
    (userID : Int) (req : Request) (h : (UserService.getOrders hw s ctx userID).1 = some req) :
    req.ctx = ctx ∧ req.header = s.propagator.Inject ctx [] := by
  unfold UserService.getOrders at h
  cases hnr : hw.newRequest ("http://localhost:8081/orders?user_id=" ++ Itoa userID) with
  | some e => simp [hnr] at h
  | none =>
    simp only [hnr] at h
    split at h <;>
    · simp only [Option.some.injEq] at h
      subst h
      exact ⟨rfl, rfl⟩

/-- The handler of user-service hands `getOrders` a context whose baggage is the set it
made with `baggage.New`. -/
theorem UserService.getUserHandler_outbound (hw : HandlerWorld) (s : GoState) (r : Request) :
    ∃ ctx userID, ctx.baggage = (NewBaggage hw.lim [(NewMember "user.type" "premium").1]).1
      ∧ (UserService.getUserHandler hw s r).outbound
          = (UserService.getOrders hw s ctx userID).1 :=
  ⟨_, _, rfl, rfl⟩

/-- The composite of trace context and baggage writes the wire form of a non-empty
baggage set under the key `baggage`. -/
theorem composite_Inject_baggage (ctx : Context) (h : Header) (hne : ctx.baggage.members ≠ []) :
    (Propagator.Inject [TextMapPropagator.TraceContext, TextMapPropagator.Baggage] ctx h).Get
      "baggage" = ctx.baggage.wire := by
  simp [Propagator.Inject, TextMapPropagator.Inject, FromContext, hne, Header.Get_Set]

/-- The composite of trace context and baggage extracts the baggage it parses from the
header `baggage`. -/
theorem composite_Extract_baggage (lim : Limits) (ctx : Context) (h : Header) :
    (Propagator.Extract lim [TextMapPropagator.TraceContext, TextMapPropagator.Baggage] ctx
      h).baggage = parseBaggage lim (h.Get "baggage") := rfl

/-- The handler of order-service extracts with the global propagator, and gives the
span `get-orders` one attribute for each member of the extracted baggage. -/
theorem OrderService.getOrdersHandler_span (hw : HandlerWorld) (s : GoState) (r : Request) :
    (OrderService.getOrdersHandler hw s r).extracted
        = s.propagator.Extract hw.lim r.ctx r.header
      ∧ ∃ sc, (OrderService.getOrdersHandler hw s r).span
          = (OrderService.getOrdersHandler hw s r).extracted.baggage.members.foldl
              (fun sp member => sp.SetAttributes ("baggage." ++ member.key) member.value)
              { name := "get-orders", spanContext := sc, attributes := [] } :=
  ⟨rfl, _, rfl⟩

/-- C2: both services run with the propagator a successful `telemetry.Run` registered,
and the limits of the baggage package admit one member of 17 bytes. Then, for every
request `getUserHandler` receives, the request `getOrders` builds carries a context
whose baggage is exactly `user.type=premium`, and its header `baggage` reads
`user.type=premium`. For every request of order-service that arrives with that
`baggage` header, `getOrdersHandler` extracts a context whose baggage is exactly that
member, and gives the span `get-orders` the one attribute
`baggage.user.type = premium`. -/
theorem baggage_round_trip (wu wo : World) (hu ho : HandlerWorld)
    (s0u s1u su s0o s1o so : GoState) (fu fo : ShutdownFunc) (r req r2 : Request)
    (hlimU : 1 ≤ hu.lim.maxMembers ∧ 17 ≤ hu.lim.maxBytes)
    (hlimO : 1 ≤ ho.lim.maxMembers ∧ 17 ≤ ho.lim.maxBytes)
    (hRunU : Run wu Context.Background "user-service" s0u = Res.ok (fu, none) s1u)
    (hpu : su.propagator = s1u.propagator)
    (hRunO : Run wo Context.Background "order-service" s0o = Res.ok (fo, none) s1o)
    (hpo : so.propagator = s1o.propagator)
    (hreq : (UserService.getUserHandler hu su r).outbound = some req)
    (hhdr : r2.header.Get "baggage" = req.header.Get "baggage") :
    (FromContext req.ctx).Members = [⟨"user.type", "premium"⟩]
      ∧ req.header.Get "baggage" = "user.type=premium"
      ∧ (FromContext (OrderService.getOrdersHandler ho so r2).extracted).Members
          = [⟨"user.type", "premium"⟩]
      ∧ (OrderService.getOrdersHandler ho so r2).span.name = "get-orders"
      ∧ (OrderService.getOrdersHandler ho so r2).span.attributes
          = [("baggage.user.type", "premium")] := by
  have hPu : su.propagator = [TextMapPropagator.TraceContext, TextMapPropagator.Baggage] :=
    hpu.trans (Run_ok_propagator wu _ _ _ _ _ hRunU)
  have hPo : so.propagator = [TextMapPropagator.TraceContext, TextMapPropagator.Baggage] :=
    hpo.trans (Run_ok_propagator wo _ _ _ _ _ hRunO)
  have hwire : Baggage.wire ⟨[⟨"user.type", "premium"⟩]⟩ = "user.type=premium" := by decide
  -- the request user-service sends
  obtain ⟨ctx, userID, hbag, hout⟩ := UserService.getUserHandler_outbound hu su r
  rw [NewBaggage_premium hu.lim hlimU] at hbag
  rw [hout] at hreq
  obtain ⟨hctx, hheader⟩ := UserService.getOrders_request hu su ctx userID req hreq
  have hsent : req.header.Get "baggage" = "user.type=premium" := by
    rw [hheader, hPu, composite_Inject_baggage ctx [] (by rw [hbag]; simp), hbag, hwire]
  -- the request order-service receives
  obtain ⟨hext, sc, hspan⟩ := OrderService.getOrdersHandler_span ho so r2
  have hgot : (OrderService.getOrdersHandler ho so r2).extracted.baggage
      = ⟨[⟨"user.type", "premium"⟩]⟩ := by
    rw [hext, hPo, composite_Extract_baggage, hhdr, hsent, parseBaggage_premium ho.lim hlimO]
  refine ⟨?_, hsent, ?_, ?_, ?_⟩
  · rw [hctx]
    simp [FromContext, Baggage.Members, hbag]
  · simp [FromContext, Baggage.Members, hgot]
  · rw [hspan, hgot]
    rfl
  · rw [hspan, hgot]
    rfl

/-- Witness for C2: in the example exchange, where both services ran `Run` in a quiet
world, the hypotheses hold and the span `get-orders` gets `baggage.user.type = premium`. -/
theorem baggage_round_trip_witness :
    (UserService.getUserHandler HandlerWorld.quiet Example.userState Example.inbound).outbound
        = some Example.sent
      ∧ Example.received.header.Get "baggage" = Example.sent.header.Get "baggage"
      ∧ (OrderService.getOrdersHandler HandlerWorld.quiet Example.orderState
          Example.received).span.attributes = [("baggage.user.type", "premium")] :=
  ⟨by decide, by decide,
    (baggage_round_trip World.quiet World.quiet HandlerWorld.quiet HandlerWorld.quiet
      GoState.init Example.userState Example.userState
      GoState.init Example.orderState Example.orderState
      (ShutdownFunc.shutdownProvider ⟨⟨[("service.name", "user-service")]⟩⟩)
      (ShutdownFunc.shutdownProvider ⟨⟨[("service.name", "order-service")]⟩⟩)
      Example.inbound Example.sent Example.received
      (by decide) (by decide) rfl rfl rfl rfl (by decide) (by decide)).2.2.2.2⟩

end OtelInstrumentation



